import Mathlib

/-!
Shallow embedding of the ChatTTS-Forge segment-batch generator
(modules/core/models/tts/ChatTtsModel.py) and of the web-UI seed handling
(modules/webui/webui_utils.py), together with theorems checking the
natural-language specification against it.

Collaborators that live outside the available sources (the ChatTTSInfer
inference backend, the TTSModel base-class cache, the speaker store and the
audio utilities) are modelled from the specification; every such definition
carries a doc comment starting with "Modelled from the spec".
-/

/-- Mono audio: a list of samples. -/
abbrev Audio := List Int

/-- Sample-rate and samples pair; mirrors the NP_AUDIO alias of the source. -/
abbrev AudioPair := Nat × Audio

/-- Raw backend output for one segment: a list of channels.  Channel 0 is the
primary one; the source extracts it with data[0] (comment: stereo to mono). -/
abbrev Stereo := List Audio

/-- Total number of samples over all channels; mirrors numpy data.size, which
the streaming loop compares with 0 to detect a finished segment. -/
def stereoSize (d : Stereo) : Nat := (d.map (fun c => c.length)).sum

/-- Modelled from the spec: one emotion-tagged speaker reference (waveform
bytes, their sample rate, transcript).  The TTSSpeaker module is not under
src/; the field set follows spec section 3 and the uses in get_ref_wav. -/
structure RefData where
  emotion : String
  wav : List Int
  wav_sr : Nat
  text : String
deriving DecidableEq, Repr

/-- Modelled from the spec (section 6): the speaker object exposes an optional
embedding and a get_ref lookup over emotion-tagged references. -/
structure TTSSpeaker where
  emb : Option (List Int)
  refs : List RefData
deriving DecidableEq, Repr

/-- Modelled from the spec: get_ref returns the first reference satisfying the
predicate, or none. -/
def TTSSpeaker.get_ref (spk : TTSSpeaker) (p : RefData → Bool) : Option RefData :=
  spk.refs.find? p

/-- Modelled from the spec (section 3): the segment dataclass.  Its defining
module (modules/core/pipeline) is not under src/; the field set follows the
spec and the accesses made by generate_batch_base. -/
structure TTSSegment where
  text : String
  spk : Option TTSSpeaker
  emotion : String
  temperature : Rat
  top_p : Rat
  top_k : Nat
  repetition_penalty : Rat
  max_new_token : Nat
  prompt1 : String
  prompt2 : String
  prefix_ : String
  infer_seed : Int
deriving DecidableEq, Repr

/-- Inference configuration (modules/api/impl/model/chattts_model.py is not
under src/; fields follow spec section 3 and the uses in the sources). -/
structure InferConfig where
  batch_size : Nat
  spliter_threshold : Nat
  eos : String
  seed : Int
  stream_chunk_size : Nat
deriving DecidableEq, Repr

/-- Pipeline context as used by generate_batch_base: only the inference
configuration is consulted there. -/
structure TTSPipelineContext where
  infer_config : InferConfig
deriving DecidableEq, Repr

/-- Cache keys. -/
abbrev CacheKey := List TTSSegment

/-- Modelled from the spec (section 4.3): the cache key is a deterministic
fingerprint of every segment's content; configuration fields that do not
affect output (batch size, splitting threshold, eos) are excluded. -/
def cacheKeyOf (segments : List TTSSegment) (_context : TTSPipelineContext) : CacheKey :=
  segments

/-- Modelled from the spec: cache storage.  A stored none models the Python
call set_cache(value=None) issued by the streaming path when nothing was
yielded; it behaves as a miss on lookup. -/
abbrev Cache := List (CacheKey × Option (List AudioPair))

/-- Modelled from the spec: cache lookup (TTSModel.get_cache is not under
src/); first matching entry wins. -/
def cacheGet : Cache → CacheKey → Option (List AudioPair)
  | [], _ => none
  | (k, v) :: rest, key => if k = key then v else cacheGet rest key

/-- Modelled from the spec: cache write (TTSModel.set_cache is not under
src/); prepending gives overwrite semantics for cacheGet. -/
def cacheSet (c : Cache) (key : CacheKey) (v : Option (List AudioPair)) : Cache :=
  (key, v) :: c

/-- Argument record of one ChatTTSInfer generate_audio / generate_audio_stream
invocation.  The seed field records that the source wraps the call in
SeedContext(seed, cudnn_deterministic=False); a deterministic backend is a
function of this record. -/
structure BackendArgs where
  text : List String
  spk_emb : Option (List Int)
  spk_smp : Option String
  txt_smp : Option String
  top_P : Rat
  top_K : Nat
  temperature : Rat
  prompt1 : String
  prompt2 : String
  prefix_ : String
  seed : Int
deriving DecidableEq, Repr

/-- Modelled from the spec: the collaborators of the generator that are not
under src/ — the ChatTTSInfer backend (blocking and streaming generation, with
none as the per-segment failure sentinel, plus speaker-sample encoding) and
the audio utilities (byte decoding and resampling).  The streaming entry point
additionally receives the chunk size and returns the finite list of partial
batches a full consumption would yield. -/
structure InferEnv where
  generate_audio : BackendArgs → List (Option Stereo)
  generate_audio_stream : BackendArgs → Nat → List (List (Option Stereo))
  sample_audio_speaker : Audio → String
  bytes_to_librosa_array : List Int → Nat → Audio
  resample : Nat → Nat → Audio → Audio

/-- Modelled from the spec: AudioReshaper.normalize_audio resamples an audio
pair to the target sample rate (AudioReshaper.py is not under src/). -/
def normalize_audio (env : InferEnv) (audio : Nat × Audio) (target_sr : Nat) : Nat × Audio :=
  (target_sr, env.resample audio.1 target_sr audio.2)

/-- Modelled from the spec: TTSModel.get_spk_emb returns the segment speaker's
optional embedding (the TTSModel base class is not under src/). -/
def get_spk_emb (segment : TTSSegment) (_context : TTSPipelineContext) : Option (List Int) :=
  segment.spk.bind (fun s => s.emb)

/-- Embeds ChatTTSModel.get_ref_wav (ChatTtsModel.py lines 73-90): resolve the
speaker, look up an emotion-matching reference, decode its bytes, resample the
waveform to 24 kHz, return it with the reference transcript. -/
def get_ref_wav (env : InferEnv) (segment : TTSSegment) : Option Audio × Option String :=
  match segment.spk with
  | none => (none, none)
  | some spk =>
    match spk.get_ref (fun x => x.emotion == segment.emotion) with
    | none => (none, none)
    | some ref_data =>
      let wav := env.bytes_to_librosa_array ref_data.wav ref_data.wav_sr
      let wav2 := (normalize_audio env (ref_data.wav_sr, wav) 24000).2
      (some wav2, some ref_data.text)

/-- Last-character test mirroring the Python txt_smp.endswith call for the
one-character Chinese full stop used by the source. -/
def endswith_cn (s : String) : Bool := s.data.getLast? == some '。'

/-- Embeds the prompt2 wrapping (lines 126-129): prompt2.strip() is truthy
exactly when the prompt holds some non-whitespace character, and then the
prompt is wrapped in the fixed delimiter tokens. -/
def wrapPrompt2 (p2 : String) : String :=
  if p2.data.all (fun c => c.isWhitespace) then p2
  else "[Ptts][Ptts][Ptts] " ++ p2 ++ " [Stts][Ptts][Stts][Ptts][Stts]"

/-- Embeds the reference-transcript normalization (lines 133-134): a truthy
(non-empty) transcript not ending in the full stop gets one appended. -/
def normTxtSmp : Option String → Option String
  | none => none
  | some s => if s ≠ "" ∧ endswith_cn s = false then some (s ++ "。") else some s

/-- Non-streaming per-slot conversion (lines 152-156): a none result
(generation failure) becomes an empty array, otherwise channel 0 is taken. -/
def nsSlot : Option Stereo → Audio
  | none => []
  | some d => d.headD []

/-- Streaming per-slot conversion (lines 178-187): none (generation failure)
or a size-0 chunk (segment finished) becomes an empty array, otherwise
channel 0 is taken. -/
def streamSlot : Option Stereo → Audio
  | none => []
  | some d => if stereoSize d = 0 then [] else d.headD []

/-- Shared locals computed before the stream / non-stream branch of
generate_batch_base (lines 108-136), all derived from the first segment
except the per-segment text list. -/
structure BatchLocals where
  texts : List String
  spk_emb : Option (List Int)
  spk_smp : Option String
  txt_smp : Option String
  top_P : Rat
  top_K : Nat
  temperature : Rat
  prompt1 : String
  prompt2 : String
  prefix_ : String
  seed : Int
  chunk_size : Nat
deriving DecidableEq, Repr

/-- Embeds lines 108-136 of generate_batch_base: texts from every segment,
everything else from the first segment; speaker sample from the emotion
matched reference if any; prompt2 wrapped; transcript normalized. -/
def mkLocals (env : InferEnv) (seg0 : TTSSegment) (segments : List TTSSegment)
    (context : TTSPipelineContext) : BatchLocals :=
  let spk_emb := if seg0.spk.isSome then get_spk_emb seg0 context else none
  let rw := get_ref_wav env seg0
  let spk_smp := rw.1.map env.sample_audio_speaker
  { texts := segments.map (fun s => s.text)
    spk_emb := spk_emb
    spk_smp := spk_smp
    txt_smp := normTxtSmp rw.2
    top_P := seg0.top_p
    top_K := seg0.top_k
    temperature := seg0.temperature
    prompt1 := seg0.prompt1
    prompt2 := wrapPrompt2 seg0.prompt2
    prefix_ := seg0.prefix_
    seed := seg0.infer_seed
    chunk_size := context.infer_config.stream_chunk_size }

/-- Argument record built at the non-streaming call site (lines 140-151):
spk_emb is forced to none when a speaker sample is present. -/
def mkArgsNS (L : BatchLocals) : BackendArgs :=
  { text := L.texts
    spk_emb := if L.spk_smp.isSome then none else L.spk_emb
    spk_smp := L.spk_smp
    txt_smp := L.txt_smp
    top_P := L.top_P
    top_K := L.top_K
    temperature := L.temperature
    prompt1 := L.prompt1
    prompt2 := L.prompt2
    prefix_ := L.prefix_
    seed := L.seed }

/-- Argument record built at the streaming call site (lines 165-176); the
source repeats the spk_emb precedence expression verbatim there. -/
def mkArgsStream (L : BatchLocals) : BackendArgs :=
  { text := L.texts
    spk_emb := if L.spk_smp.isSome then none else L.spk_emb
    spk_smp := L.spk_smp
    txt_smp := L.txt_smp
    top_P := L.top_P
    top_K := L.top_K
    temperature := L.temperature
    prompt1 := L.prompt1
    prompt2 := L.prompt2
    prefix_ := L.prefix_
    seed := L.seed }

/-- Observable state of the ChatTTSModel object plus instrumentation for the
test-double observations the spec asks for: the cache, the current_infer
field (tracked as a Bool: is it non-None), a counter of ChatTTSInfer
constructions, and logs of blocking and streaming backend invocations. -/
structure GenState where
  cache : Cache
  current_infer : Bool
  infers_created : Nat
  calls : List BackendArgs
  stream_calls : List (BackendArgs × Nat)
deriving DecidableEq, Repr

/-- Embeds the per-yield buffer update of the streaming loop (lines 191-197):
buff[i] is extended by results[i] for every index of results; none models the
Python IndexError raised when a yield is longer than the buffer. -/
def accumStep : List AudioPair → List Audio → Option (List AudioPair)
  | buff, [] => some buff
  | [], _ :: _ => none
  | (sr1, before) :: brest, data :: drest =>
    (accumStep brest drest).map (fun r => (sr1, before ++ data) :: r)

/-- Embeds the buffer accumulation of a fully consumed streaming generator
(lines 163-197): the first yield initializes the buffer, later yields extend
it index-wise.  The outer none models a Python IndexError; the inner option is
the final buffer, none when the backend yielded nothing. -/
def streamFold : Option (List AudioPair) → List (List (Option Stereo)) →
    Option (Option (List AudioPair))
  | buff, [] => some buff
  | buff, raw :: rest =>
    let results := raw.map streamSlot
    let audio_arr := results.map (fun d => ((24000 : Nat), d))
    match buff with
    | none => streamFold (some audio_arr) rest
    | some b =>
      match accumStep b results with
      | none => none
      | some b2 => streamFold (some b2) rest

/-- Embeds generate_batch_base with stream=False (lines 92-159): cache lookup;
on a miss, backend construction, derivation of the batch parameters from the
first segment, blocking generation under SeedContext(seed), per-slot
conversion, cache write.  Returns none where the Python raises (the
segments[0] access on an empty list). -/
def generate_batch_base_nostream (env : InferEnv) (st : GenState)
    (segments : List TTSSegment) (context : TTSPipelineContext) :
    Option (List AudioPair × GenState) :=
  match cacheGet st.cache (cacheKeyOf segments context) with
  | some cached => some (cached, st)
  | none =>
    match segments with
    | [] => none
    | seg0 :: _ =>
      let L := mkLocals env seg0 segments context
      let args := mkArgsNS L
      let results := env.generate_audio args
      let audio_arr := results.map (fun data => ((24000 : Nat), nsSlot data))
      some (audio_arr,
        { cache := cacheSet st.cache (cacheKeyOf segments context) (some audio_arr)
          current_infer := true
          infers_created := st.infers_created + 1
          calls := st.calls ++ [args]
          stream_calls := st.stream_calls })

/-- Embeds generate_batch_base with stream=True (lines 92-136 and 160-200) for
a fully consumed generator: on a hit the generator yields the cached list once
and stops; on a miss every yielded partial batch is converted per slot and
yielded, the running buffer is accumulated, and after exhaustion the buffer is
written to the cache.  Returns the list of yields and the final state; none
where the Python raises. -/
def generate_batch_base_stream (env : InferEnv) (st : GenState)
    (segments : List TTSSegment) (context : TTSPipelineContext) :
    Option (List (List AudioPair) × GenState) :=
  match cacheGet st.cache (cacheKeyOf segments context) with
  | some cached => some ([cached], st)
  | none =>
    match segments with
    | [] => none
    | seg0 :: _ =>
      let L := mkLocals env seg0 segments context
      let args := mkArgsStream L
      let raws := env.generate_audio_stream args L.chunk_size
      (streamFold none raws).map (fun buff =>
        (raws.map (fun raw => raw.map (fun d => ((24000 : Nat), streamSlot d))),
          { cache := cacheSet st.cache (cacheKeyOf segments context) buff
            current_infer := true
            infers_created := st.infers_created + 1
            calls := st.calls
            stream_calls := st.stream_calls ++ [(args, L.chunk_size)] }))

/-- Embeds ChatTTSModel.generate_batch (lines 55-58). -/
def generate_batch (env : InferEnv) (st : GenState) (segments : List TTSSegment)
    (context : TTSPipelineContext) : Option (List AudioPair × GenState) :=
  generate_batch_base_nostream env st segments context

/-- Embeds ChatTTSModel.generate_batch_stream (lines 60-63). -/
def generate_batch_stream (env : InferEnv) (st : GenState) (segments : List TTSSegment)
    (context : TTSPipelineContext) : Option (List (List AudioPair) × GenState) :=
  generate_batch_base_stream env st segments context

/-- Python exceptions relevant to the embedded code. -/
inductive PyError where
  | attributeError
deriving DecidableEq, Repr

/-- Embeds ChatTTSModel.interrupt (lines 68-71): self.current_infer.interrupt().
When current_infer is still the class-level None, the attribute access on None
raises AttributeError; otherwise the call is delegated to the backend. -/
def model_interrupt (st : GenState) : Except PyError Unit :=
  if st.current_infer then Except.ok () else Except.error PyError.attributeError

/-- Sentence-terminal punctuation marks (ASCII and full-width). -/
def isTerminalMark (c : Char) : Bool :=
  c == '。' || c == '.' || c == '!' || c == '?' || c == '！' || c == '？'

/-- A string ends with a sentence-terminal punctuation mark. -/
def endsWithTerminal (s : String) : Bool :=
  match s.data.getLast? with
  | none => false
  | some c => isTerminalMark c

/-- Truncation toward zero; mirrors Python int() applied to a float. -/
def int_of_rat (q : Rat) : Int :=
  if q < 0 then -(Int.floor (-q)) else Int.floor q

/-- Embeds the infer_seed clamp of tts_generate (webui_utils.py line 208):
np.clip(infer_seed, -1, 2**32 - 1, dtype=np.float64).  Rationals model the
float64 values: both clip bounds are exactly representable in float64 and
float64 rounding is monotone, so the exact rational clamp has the same range. -/
def tts_generate_clip_seed (x : Rat) : Rat :=
  min (max x (-1)) ((2 : Rat) ^ 32 - 1)

/-- Embeds line 209 of webui_utils.py: int() applied to the clipped seed. -/
def tts_generate_seed (x : Rat) : Int :=
  int_of_rat (tts_generate_clip_seed x)

/-- Embeds the InferConfig construction of tts_generate (webui_utils.py lines
229-234): the clamped seed is stored in the inference configuration (the
stream chunk size keeps the repository default). -/
def tts_generate_infer_config (batch_size : Nat) (spliter_thr : Nat) (eos : String)
    (infer_seed : Rat) : InferConfig :=
  { batch_size := batch_size
    spliter_threshold := spliter_thr
    eos := eos
    seed := tts_generate_seed infer_seed
    stream_chunk_size := 96 }

/-! Concrete fixtures used by the witness theorems. -/

/-- Backend double producing a failure sentinel for every text and an already
exhausted stream. -/
def noneEnv : InferEnv :=
  { generate_audio := fun args => args.text.map (fun _ => none)
    generate_audio_stream := fun _ _ => []
    sample_audio_speaker := fun _ => "smp"
    bytes_to_librosa_array := fun b _ => b
    resample := fun _ _ a => a }

/-- Backend double for a three-segment batch: slot 1 fails (sentinel), the
stream yields two partial batches whose chunks concatenate slot-wise to the
blocking output. -/
def sampleEnv : InferEnv :=
  { generate_audio := fun _ => [some [[1, 2]], none, some [[3]]]
    generate_audio_stream := fun _ _ =>
      [[some [[1]], none, some [[3]]], [some [[2]], some [], some []]]
    sample_audio_speaker := fun _ => "smp"
    bytes_to_librosa_array := fun b _ => b
    resample := fun _ _ a => a }

/-- A plain segment without speaker data. -/
def seg1 : TTSSegment :=
  { text := "hi", spk := none, emotion := "default", temperature := 3
    top_p := 7, top_k := 20, repetition_penalty := 11
    max_new_token := 2048, prompt1 := "", prompt2 := "", prefix_ := ""
    infer_seed := 42 }

/-- seg1 with different repetition penalty and max-token settings. -/
def segB1 : TTSSegment := { seg1 with repetition_penalty := 2, max_new_token := 1 }

/-- Second and third segments of the three-segment batch. -/
def segT2 : TTSSegment := { seg1 with text := "b" }

def segT3 : TTSSegment := { seg1 with text := "c" }

def segs3 : List TTSSegment := [seg1, segT2, segT3]

/-- Emotion-matched reference whose transcript is empty. -/
def refEmpty : RefData := { emotion := "happy", wav := [7], wav_sr := 16000, text := "" }

def spkEmpty : TTSSpeaker := { emb := some [5], refs := [refEmpty] }

def segRefEmpty : TTSSegment := { seg1 with spk := some spkEmpty, emotion := "happy" }

/-- Emotion-matched reference with a non-empty, unterminated transcript. -/
def refHi : RefData := { emotion := "happy", wav := [7], wav_sr := 16000, text := "ni hao" }

def spkHi : TTSSpeaker := { emb := some [5], refs := [refHi] }

def segRefHi : TTSSegment := { seg1 with spk := some spkHi, emotion := "happy" }

/-- Default pipeline context for the fixtures. -/
def ctx0 : TTSPipelineContext :=
  { infer_config :=
    { batch_size := 4, spliter_threshold := 100, eos := "[uv_break]"
      seed := 42, stream_chunk_size := 96 } }

/-- Fresh model state: empty cache, class-level current_infer = None. -/
def st0 : GenState :=
  { cache := [], current_infer := false, infers_created := 0
    calls := [], stream_calls := [] }

/-- State whose cache already holds a value for [seg1]. -/
def stHit : GenState :=
  { cache := [([seg1], some [(24000, [9])])], current_infer := false
    infers_created := 0, calls := [], stream_calls := [] }

/-- seg1 with a whitespace-padded, non-empty prompt2. -/
def segP2 : TTSSegment := { seg1 with prompt2 := " x " }

/-! Helper lemmas shared by several claims. -/

/-- Unfolding lemma: generate_batch_base with stream=False on a cache miss and
a non-empty segment list. -/
theorem generate_nostream_miss (env : InferEnv) (st : GenState) (seg0 : TTSSegment)
    (rest : List TTSSegment) (context : TTSPipelineContext)
    (hmiss : cacheGet st.cache (cacheKeyOf (seg0 :: rest) context) = none) :
    generate_batch_base_nostream env st (seg0 :: rest) context =
      some ((env.generate_audio (mkArgsNS (mkLocals env seg0 (seg0 :: rest) context))).map
              (fun data => ((24000 : Nat), nsSlot data)),
        { cache := cacheSet st.cache (cacheKeyOf (seg0 :: rest) context)
            (some ((env.generate_audio (mkArgsNS (mkLocals env seg0 (seg0 :: rest) context))).map
              (fun data => ((24000 : Nat), nsSlot data))))
          current_infer := true
          infers_created := st.infers_created + 1
          calls := st.calls ++ [mkArgsNS (mkLocals env seg0 (seg0 :: rest) context)]
          stream_calls := st.stream_calls }) := by
  simp only [generate_batch_base_nostream, hmiss]

/-- Unfolding lemma: generate_batch_base with stream=True on a cache miss and
a non-empty segment list. -/
theorem generate_stream_miss (env : InferEnv) (st : GenState) (seg0 : TTSSegment)
    (rest : List TTSSegment) (context : TTSPipelineContext)
    (hmiss : cacheGet st.cache (cacheKeyOf (seg0 :: rest) context) = none) :
    generate_batch_base_stream env st (seg0 :: rest) context =
      (streamFold none (env.generate_audio_stream
          (mkArgsStream (mkLocals env seg0 (seg0 :: rest) context))
          (mkLocals env seg0 (seg0 :: rest) context).chunk_size)).map (fun buff =>
        ((env.generate_audio_stream (mkArgsStream (mkLocals env seg0 (seg0 :: rest) context))
            (mkLocals env seg0 (seg0 :: rest) context).chunk_size).map
              (fun raw => raw.map (fun d => ((24000 : Nat), streamSlot d))),
          { cache := cacheSet st.cache (cacheKeyOf (seg0 :: rest) context) buff
            current_infer := true
            infers_created := st.infers_created + 1
            calls := st.calls
            stream_calls := st.stream_calls ++
              [(mkArgsStream (mkLocals env seg0 (seg0 :: rest) context),
                (mkLocals env seg0 (seg0 :: rest) context).chunk_size)] })) := by
  simp only [generate_batch_base_stream, hmiss]

/-- The two call sites build the same argument record. -/
theorem mkArgsStream_eq_mkArgsNS (L : BatchLocals) : mkArgsStream L = mkArgsNS L := rfl

/-- Writing a value and reading the same key gives it back. -/
theorem cacheGet_cacheSet_same (c : Cache) (key : CacheKey) (v : Option (List AudioPair)) :
    cacheGet (cacheSet c key v) key = v := by
  simp [cacheGet, cacheSet]

/-! Claim C1. -/

/-- Claim C1: when the cache holds a value for the segments and context,
generate_batch_base returns the cached value without constructing or invoking
an inference backend: with stream=False it returns the cached list directly,
with stream=True the generator yields exactly the cached list once and stops,
and in both cases the model state — backend-construction counter, invocation
logs, current_infer, cache — is returned unchanged. -/
theorem C1_cache_hit (env : InferEnv) (st : GenState) (segments : List TTSSegment)
    (context : TTSPipelineContext) (v : List AudioPair)
    (h : cacheGet st.cache (cacheKeyOf segments context) = some v) :
    generate_batch_base_nostream env st segments context = some (v, st) ∧
    generate_batch_base_stream env st segments context = some ([v], st) := by
  constructor
  · simp only [generate_batch_base_nostream, h]
  · simp only [generate_batch_base_stream, h]

/-- Witness for C1 at a concrete cached state, backend double and segment. -/
theorem C1_cache_hit_witness :
    generate_batch_base_nostream noneEnv stHit [seg1] ctx0 = some ([(24000, [9])], stHit) ∧
    generate_batch_base_stream noneEnv stHit [seg1] ctx0 = some ([[(24000, [9])]], stHit) :=
  C1_cache_hit noneEnv stHit [seg1] ctx0 [(24000, [9])] (by decide)

/-! Claim C10. -/

/-- Claim C10: for every numeric infer_seed accepted by the web-UI entry point
tts_generate, the seed stored in the inference configuration is an integer in
the closed interval from -1 to 2^32 - 1. -/
theorem C10_seed_clamped (batch_size spliter_thr : Nat) (eos : String) (x : Rat) :
    -1 ≤ (tts_generate_infer_config batch_size spliter_thr eos x).seed ∧
    (tts_generate_infer_config batch_size spliter_thr eos x).seed ≤ 2 ^ 32 - 1 := by
  have hB : ((2 : Rat) ^ 32 - 1) = ((2 ^ 32 - 1 : Int) : Rat) := by push_cast; ring
  have h1 : (-1 : Rat) ≤ tts_generate_clip_seed x := by
    unfold tts_generate_clip_seed
    exact le_min (le_max_right x (-1)) (by norm_num)
  have h2 : tts_generate_clip_seed x ≤ (2 : Rat) ^ 32 - 1 := min_le_right _ _
  show -1 ≤ int_of_rat (tts_generate_clip_seed x) ∧
    int_of_rat (tts_generate_clip_seed x) ≤ 2 ^ 32 - 1
  set q := tts_generate_clip_seed x with hqdef
  unfold int_of_rat
  by_cases hneg : q < 0
  · rw [if_pos hneg]
    constructor
    · have hle : -q ≤ 1 := by linarith
      have hf : Int.floor (-q) ≤ Int.floor (1 : Rat) := Int.floor_le_floor hle
      rw [Int.floor_one] at hf
      omega
    · have hf0 : 0 ≤ Int.floor (-q) := Int.floor_nonneg.mpr (by linarith)
      have hle0 : -Int.floor (-q) ≤ 0 := by omega
      calc -Int.floor (-q) ≤ 0 := hle0
        _ ≤ 2 ^ 32 - 1 := by norm_num
  · rw [if_neg hneg]
    push_neg at hneg
    constructor
    · have h0 : (0 : Int) ≤ Int.floor q := Int.floor_nonneg.mpr hneg
      omega
    · have hf : Int.floor q ≤ Int.floor ((2 : Rat) ^ 32 - 1) := Int.floor_le_floor h2
      rw [hB, Int.floor_intCast] at hf
      exact hf

/-! Claim C8. -/

/-- Claim C8 fails as stated: on a fresh model — no cache-miss generate call
has created an inference backend — interrupt() dereferences the class-level
current_infer = None and raises AttributeError, an accidental untyped failure
rather than a no-op or a typed nothing-to-interrupt error. -/
theorem C8_counterexample :
    model_interrupt st0 = Except.error PyError.attributeError := rfl

/-- Claim C8 (amended): calling interrupt() when no backend has been created
fails with AttributeError on the null current_infer reference; only after a
cache-miss generate call has created a backend does interrupt() succeed. -/
theorem C8_amended_thm :
    (∀ st : GenState, st.current_infer = false →
      model_interrupt st = Except.error PyError.attributeError) ∧
    (∀ (env : InferEnv) (st : GenState) (segments : List TTSSegment)
        (context : TTSPipelineContext) (r : List AudioPair × GenState),
      generate_batch_base_nostream env st segments context = some r →
      cacheGet st.cache (cacheKeyOf segments context) = none →
      model_interrupt r.2 = Except.ok ()) := by
  constructor
  · intro st h
    simp [model_interrupt, h]
  · intro env st segments context r hgen hmiss
    match segments with
    | [] =>
      rw [generate_batch_base_nostream, hmiss] at hgen
      exact absurd hgen (by simp)
    | seg0 :: rest =>
      rw [generate_nostream_miss env st seg0 rest context hmiss] at hgen
      cases hgen
      simp [model_interrupt]

/-- Witness for C8 (amended): the fresh state errors, the state after a
concrete cache-miss generation succeeds. -/
theorem C8_amended_witness :
    model_interrupt st0 = Except.error PyError.attributeError ∧
    model_interrupt
      { cache := [([seg1], some [(24000, [])])], current_infer := true
        infers_created := 1
        calls := [{ text := ["hi"], spk_emb := none, spk_smp := none, txt_smp := none
                    top_P := 7, top_K := 20, temperature := 3, prompt1 := ""
                    prompt2 := "", prefix_ := "", seed := 42 }]
        stream_calls := [] } = Except.ok () :=
  ⟨C8_amended_thm.1 st0 rfl,
    C8_amended_thm.2 noneEnv st0 [seg1] ctx0
      ([(24000, [])],
        { cache := [([seg1], some [(24000, [])])], current_infer := true
          infers_created := 1
          calls := [{ text := ["hi"], spk_emb := none, spk_smp := none, txt_smp := none
                      top_P := 7, top_K := 20, temperature := 3, prompt1 := ""
                      prompt2 := "", prefix_ := "", seed := 42 }]
          stream_calls := [] }) (by decide) rfl⟩

/-! Claim C2. -/

/-- Claim C2 fails as stated: repetition penalty and max tokens are never
passed to the backend (the corresponding source lines are commented out) —
two batches differing only in those first-segment fields produce the
identical recorded backend invocation and identical audio. -/
theorem C2_counterexample :
    seg1.repetition_penalty ≠ segB1.repetition_penalty ∧
    seg1.max_new_token ≠ segB1.max_new_token ∧
    (generate_batch_base_nostream noneEnv st0 [seg1] ctx0).map
        (fun r => (r.1, r.2.calls)) =
      (generate_batch_base_nostream noneEnv st0 [segB1] ctx0).map
        (fun r => (r.1, r.2.calls)) := by decide

/-- Claim C2 (amended): on a cache miss the backend receives every segment's
text, while temperature, top-P, top-K, the three prompt strings (prompt2
wrapped), the seed and the speaker reference data are taken from the first
segment only; repetition penalty and max tokens are not forwarded to the
backend at all. -/
theorem C2_amended_thm (env : InferEnv) (st : GenState) (seg0 : TTSSegment)
    (rest : List TTSSegment) (context : TTSPipelineContext)
    (hmiss : cacheGet st.cache (cacheKeyOf (seg0 :: rest) context) = none) :
    ∃ out st1,
      generate_batch_base_nostream env st (seg0 :: rest) context = some (out, st1) ∧
      ∃ a, st1.calls = st.calls ++ [a] ∧
        a.text = (seg0 :: rest).map (fun s => s.text) ∧
        a.top_P = seg0.top_p ∧ a.top_K = seg0.top_k ∧
        a.temperature = seg0.temperature ∧
        a.prompt1 = seg0.prompt1 ∧ a.prompt2 = wrapPrompt2 seg0.prompt2 ∧
        a.prefix_ = seg0.prefix_ ∧ a.seed = seg0.infer_seed ∧
        a.spk_smp = (get_ref_wav env seg0).1.map env.sample_audio_speaker ∧
        a.txt_smp = normTxtSmp (get_ref_wav env seg0).2 :=
  ⟨_, _, generate_nostream_miss env st seg0 rest context hmiss,
    mkArgsNS (mkLocals env seg0 (seg0 :: rest) context),
    rfl, rfl, rfl, rfl, rfl, rfl, rfl, rfl, rfl, rfl, rfl⟩

/-- Witness for C2 (amended) at a concrete backend double and batch. -/
theorem C2_amended_witness :
    ∃ out st1,
      generate_batch_base_nostream noneEnv st0 [seg1] ctx0 = some (out, st1) ∧
      ∃ a, st1.calls = st0.calls ++ [a] ∧
        a.text = [seg1].map (fun s => s.text) ∧
        a.top_P = seg1.top_p ∧ a.top_K = seg1.top_k ∧
        a.temperature = seg1.temperature ∧
        a.prompt1 = seg1.prompt1 ∧ a.prompt2 = wrapPrompt2 seg1.prompt2 ∧
        a.prefix_ = seg1.prefix_ ∧ a.seed = seg1.infer_seed ∧
        a.spk_smp = (get_ref_wav noneEnv seg1).1.map noneEnv.sample_audio_speaker ∧
        a.txt_smp = normTxtSmp (get_ref_wav noneEnv seg1).2 :=
  C2_amended_thm noneEnv st0 seg1 [] ctx0 rfl

/-! Claim C4. -/

/-- Claim C4: on a cache miss, a prompt2 that still holds a non-whitespace
character after stripping is passed to the backend wrapped in the fixed
delimiter prefix and suffix tokens; an empty or whitespace-only prompt2 is
passed through unwrapped. -/
theorem C4_prompt2_thm (env : InferEnv) (st : GenState) (seg0 : TTSSegment)
    (rest : List TTSSegment) (context : TTSPipelineContext)
    (hmiss : cacheGet st.cache (cacheKeyOf (seg0 :: rest) context) = none) :
    ∃ out st1,
      generate_batch_base_nostream env st (seg0 :: rest) context = some (out, st1) ∧
      ∃ a, st1.calls = st.calls ++ [a] ∧
        (¬ seg0.prompt2.data.all (fun c => c.isWhitespace) = true →
          a.prompt2 =
            "[Ptts][Ptts][Ptts] " ++ seg0.prompt2 ++ " [Stts][Ptts][Stts][Ptts][Stts]") ∧
        (seg0.prompt2.data.all (fun c => c.isWhitespace) = true →
          a.prompt2 = seg0.prompt2) := by
  refine ⟨_, _, generate_nostream_miss env st seg0 rest context hmiss,
    mkArgsNS (mkLocals env seg0 (seg0 :: rest) context), rfl, ?_, ?_⟩
  · intro h
    show wrapPrompt2 seg0.prompt2 = _
    rw [wrapPrompt2, if_neg h]
  · intro h
    show wrapPrompt2 seg0.prompt2 = _
    rw [wrapPrompt2, if_pos h]

/-- Witness for C4 at a whitespace-padded non-empty prompt2. -/
theorem C4_prompt2_witness :
    ∃ out st1,
      generate_batch_base_nostream noneEnv st0 [segP2] ctx0 = some (out, st1) ∧
      ∃ a, st1.calls = st0.calls ++ [a] ∧
        (¬ segP2.prompt2.data.all (fun c => c.isWhitespace) = true →
          a.prompt2 =
            "[Ptts][Ptts][Ptts] " ++ segP2.prompt2 ++ " [Stts][Ptts][Stts][Ptts][Stts]") ∧
        (segP2.prompt2.data.all (fun c => c.isWhitespace) = true →
          a.prompt2 = segP2.prompt2) :=
  C4_prompt2_thm noneEnv st0 segP2 [] ctx0 rfl

/-! Claim C3. -/

/-- Claim C3 fails as stated: with emotion-matched reference audio whose
transcript is empty, the transcript passed to the backend is the empty
string, which does not end with a sentence-terminal punctuation mark. -/
theorem C3_counterexample :
    (generate_batch_base_nostream noneEnv st0 [segRefEmpty] ctx0).map
        (fun r => r.2.calls.map (fun a => a.txt_smp.map (fun s => (s, endsWithTerminal s)))) =
      some [some ("", false)] := by decide

/-- Claim C3 (amended): for a first segment whose speaker has emotion-matched
reference audio, the reference waveform is resampled to 24 kHz and the sample
derived from it is passed to the backend; when the reference transcript is
non-empty, the transcript passed to the backend ends with a sentence-terminal
punctuation mark — the Chinese full stop is appended exactly when the
transcript does not already end with it; an empty transcript is passed
through unchanged. -/
theorem C3_amended_thm (env : InferEnv) (st : GenState) (seg0 : TTSSegment)
    (rest : List TTSSegment) (context : TTSPipelineContext)
    (hmiss : cacheGet st.cache (cacheKeyOf (seg0 :: rest) context) = none)
    (spk : TTSSpeaker) (hspk : seg0.spk = some spk)
    (ref : RefData) (href : spk.get_ref (fun x => x.emotion == seg0.emotion) = some ref) :
    ∃ out st1,
      generate_batch_base_nostream env st (seg0 :: rest) context = some (out, st1) ∧
      ∃ a, st1.calls = st.calls ++ [a] ∧
        a.spk_smp = some (env.sample_audio_speaker
          (normalize_audio env (ref.wav_sr, env.bytes_to_librosa_array ref.wav ref.wav_sr)
            24000).2) ∧
        (normalize_audio env (ref.wav_sr, env.bytes_to_librosa_array ref.wav ref.wav_sr)
            24000).1 = 24000 ∧
        (ref.text ≠ "" → ∃ t, a.txt_smp = some t ∧ endsWithTerminal t = true ∧
          (endswith_cn ref.text = false → t = ref.text ++ "。") ∧
          (endswith_cn ref.text = true → t = ref.text)) ∧
        (ref.text = "" → a.txt_smp = some "") := by
  have hrw : get_ref_wav env seg0 =
      (some (normalize_audio env (ref.wav_sr, env.bytes_to_librosa_array ref.wav ref.wav_sr)
          24000).2,
        some ref.text) := by
    simp only [get_ref_wav, hspk, href]
  refine ⟨_, _, generate_nostream_miss env st seg0 rest context hmiss,
    mkArgsNS (mkLocals env seg0 (seg0 :: rest) context), rfl, ?_, rfl, ?_, ?_⟩
  · show (get_ref_wav env seg0).1.map env.sample_audio_speaker = _
    rw [hrw]
    rfl
  · intro hne
    have htxt : (mkArgsNS (mkLocals env seg0 (seg0 :: rest) context)).txt_smp =
        normTxtSmp (some ref.text) := by
      show normTxtSmp (get_ref_wav env seg0).2 = _
      rw [hrw]
    by_cases hcn : endswith_cn ref.text = true
    · refine ⟨ref.text, ?_, ?_, ?_, fun _ => rfl⟩
      · rw [htxt, normTxtSmp, if_neg]
        simp [hcn]
      · have hlast : ref.text.data.getLast? = some '。' := by
          have := hcn
          rw [endswith_cn, beq_iff_eq] at this
          exact this
        rw [endsWithTerminal, hlast]
        rfl
      · intro hfalse
        rw [hcn] at hfalse
        exact absurd hfalse (by simp)
    · have hcn' : endswith_cn ref.text = false := by
        cases h : endswith_cn ref.text
        · rfl
        · exact absurd h hcn
      refine ⟨ref.text ++ "。", ?_, ?_, fun _ => rfl, ?_⟩
      · rw [htxt, normTxtSmp, if_pos ⟨hne, hcn'⟩]
      · rw [endsWithTerminal, String.data_append]
        have : ("。" : String).data = ['。'] := rfl
        rw [this, List.getLast?_concat]
        rfl
      · intro htrue
        exact absurd htrue hcn
  · intro hempty
    show normTxtSmp (get_ref_wav env seg0).2 = _
    rw [hrw, hempty]
    rfl

/-- Witness for C3 (amended) at a concrete speaker whose emotion-matched
reference transcript is non-empty and unterminated. -/
theorem C3_amended_witness :
    ∃ out st1,
      generate_batch_base_nostream noneEnv st0 [segRefHi] ctx0 = some (out, st1) ∧
      ∃ a, st1.calls = st0.calls ++ [a] ∧
        a.spk_smp = some (noneEnv.sample_audio_speaker
          (normalize_audio noneEnv
            (refHi.wav_sr, noneEnv.bytes_to_librosa_array refHi.wav refHi.wav_sr) 24000).2) ∧
        (normalize_audio noneEnv
            (refHi.wav_sr, noneEnv.bytes_to_librosa_array refHi.wav refHi.wav_sr) 24000).1
          = 24000 ∧
        (refHi.text ≠ "" → ∃ t, a.txt_smp = some t ∧ endsWithTerminal t = true ∧
          (endswith_cn refHi.text = false → t = refHi.text ++ "。") ∧
          (endswith_cn refHi.text = true → t = refHi.text)) ∧
        (refHi.text = "" → a.txt_smp = some "") :=
  C3_amended_thm noneEnv st0 segRefHi [] ctx0 rfl spkHi rfl refHi (by decide)

/-- Characterization of a successful streaming call on a cache miss: the
yields are the per-slot converted raw batches and the final state carries the
accumulated buffer in the cache and the logged streaming invocation. -/
theorem stream_result_state (env : InferEnv) (st : GenState) (seg0 : TTSSegment)
    (rest : List TTSSegment) (context : TTSPipelineContext)
    (hmiss : cacheGet st.cache (cacheKeyOf (seg0 :: rest) context) = none)
    (ys : List (List AudioPair)) (st2 : GenState)
    (hs : generate_batch_base_stream env st (seg0 :: rest) context = some (ys, st2)) :
    ∃ buff,
      streamFold none (env.generate_audio_stream
        (mkArgsStream (mkLocals env seg0 (seg0 :: rest) context))
        (mkLocals env seg0 (seg0 :: rest) context).chunk_size) = some buff ∧
      ys = (env.generate_audio_stream
          (mkArgsStream (mkLocals env seg0 (seg0 :: rest) context))
          (mkLocals env seg0 (seg0 :: rest) context).chunk_size).map
        (fun raw => raw.map (fun d => ((24000 : Nat), streamSlot d))) ∧
      st2 = { cache := cacheSet st.cache (cacheKeyOf (seg0 :: rest) context) buff
              current_infer := true
              infers_created := st.infers_created + 1
              calls := st.calls
              stream_calls := st.stream_calls ++
                [(mkArgsStream (mkLocals env seg0 (seg0 :: rest) context),
                  (mkLocals env seg0 (seg0 :: rest) context).chunk_size)] } := by
  rw [generate_stream_miss env st seg0 rest context hmiss] at hs
  cases hfold : streamFold none (env.generate_audio_stream
      (mkArgsStream (mkLocals env seg0 (seg0 :: rest) context))
      (mkLocals env seg0 (seg0 :: rest) context).chunk_size) with
  | none =>
    rw [hfold] at hs
    exact absurd hs (by simp)
  | some buff =>
    rw [hfold] at hs
    simp only [Option.map_some', Option.some.injEq, Prod.mk.injEq] at hs
    exact ⟨buff, rfl, hs.1.symm, hs.2.symm⟩

/-! Claim C9. -/

/-- Claim C9: when the first segment's speaker yields an emotion-matched
reference-audio sample, the backend is invoked with spk_smp set and spk_emb
forced to none; when no sample is derived, the backend receives the speaker's
embedding and no sample.  The precedence is identical in the non-streaming
and streaming paths. -/
theorem C9_spk_precedence (env : InferEnv) (st : GenState) (seg0 : TTSSegment)
    (rest : List TTSSegment) (context : TTSPipelineContext)
    (hmiss : cacheGet st.cache (cacheKeyOf (seg0 :: rest) context) = none)
    (spk : TTSSpeaker) (hspk : seg0.spk = some spk) :
    (∀ ref, spk.get_ref (fun x => x.emotion == seg0.emotion) = some ref →
      (∃ out st1,
        generate_batch_base_nostream env st (seg0 :: rest) context = some (out, st1) ∧
        ∃ a, st1.calls = st.calls ++ [a] ∧ a.spk_emb = none ∧
          a.spk_smp = some (env.sample_audio_speaker
            (normalize_audio env (ref.wav_sr, env.bytes_to_librosa_array ref.wav ref.wav_sr)
              24000).2)) ∧
      (∀ ys st2, generate_batch_base_stream env st (seg0 :: rest) context = some (ys, st2) →
        ∃ a, st2.stream_calls = st.stream_calls ++
            [(a, context.infer_config.stream_chunk_size)] ∧
          a.spk_emb = none ∧
          a.spk_smp = some (env.sample_audio_speaker
            (normalize_audio env (ref.wav_sr, env.bytes_to_librosa_array ref.wav ref.wav_sr)
              24000).2))) ∧
    (spk.get_ref (fun x => x.emotion == seg0.emotion) = none →
      (∃ out st1,
        generate_batch_base_nostream env st (seg0 :: rest) context = some (out, st1) ∧
        ∃ a, st1.calls = st.calls ++ [a] ∧ a.spk_smp = none ∧ a.spk_emb = spk.emb) ∧
      (∀ ys st2, generate_batch_base_stream env st (seg0 :: rest) context = some (ys, st2) →
        ∃ a, st2.stream_calls = st.stream_calls ++
            [(a, context.infer_config.stream_chunk_size)] ∧
          a.spk_smp = none ∧ a.spk_emb = spk.emb)) := by
  constructor
  · intro ref href
    have hrw : get_ref_wav env seg0 =
        (some (normalize_audio env (ref.wav_sr, env.bytes_to_librosa_array ref.wav ref.wav_sr)
            24000).2,
          some ref.text) := by
      simp only [get_ref_wav, hspk, href]
    constructor
    · refine ⟨_, _, generate_nostream_miss env st seg0 rest context hmiss,
        mkArgsNS (mkLocals env seg0 (seg0 :: rest) context), rfl, ?_, ?_⟩
      · show (if ((get_ref_wav env seg0).1.map env.sample_audio_speaker).isSome then none
            else if seg0.spk.isSome then get_spk_emb seg0 context else none) = none
        rw [hrw]
        rfl
      · show (get_ref_wav env seg0).1.map env.sample_audio_speaker = _
        rw [hrw]
        rfl
    · intro ys st2 hs
      obtain ⟨buff, hfold, hys, hst2⟩ :=
        stream_result_state env st seg0 rest context hmiss ys st2 hs
      refine ⟨mkArgsStream (mkLocals env seg0 (seg0 :: rest) context), ?_, ?_, ?_⟩
      · rw [hst2]
        rfl
      · show (if ((get_ref_wav env seg0).1.map env.sample_audio_speaker).isSome then none
            else if seg0.spk.isSome then get_spk_emb seg0 context else none) = none
        rw [hrw]
        rfl
      · show (get_ref_wav env seg0).1.map env.sample_audio_speaker = _
        rw [hrw]
        rfl
  · intro href
    have hrw : get_ref_wav env seg0 = (none, none) := by
      simp only [get_ref_wav, hspk, href]
    have hemb : (if ((get_ref_wav env seg0).1.map env.sample_audio_speaker).isSome then none
        else if seg0.spk.isSome then get_spk_emb seg0 context else none) = spk.emb := by
      rw [hrw]
      show (if seg0.spk.isSome then get_spk_emb seg0 context else none) = spk.emb
      rw [get_spk_emb, hspk]
      rfl
    constructor
    · refine ⟨_, _, generate_nostream_miss env st seg0 rest context hmiss,
        mkArgsNS (mkLocals env seg0 (seg0 :: rest) context), rfl, ?_, hemb⟩
      show (get_ref_wav env seg0).1.map env.sample_audio_speaker = _
      rw [hrw]
      rfl
    · intro ys st2 hs
      obtain ⟨buff, hfold, hys, hst2⟩ :=
        stream_result_state env st seg0 rest context hmiss ys st2 hs
      refine ⟨mkArgsStream (mkLocals env seg0 (seg0 :: rest) context), ?_, ?_, hemb⟩
      · rw [hst2]
        rfl
      · show (get_ref_wav env seg0).1.map env.sample_audio_speaker = _
        rw [hrw]
        rfl

/-- Witness for C9 at a speaker providing both an embedding and an
emotion-matched reference. -/
theorem C9_spk_precedence_witness :
    (∀ ref, spkHi.get_ref (fun x => x.emotion == segRefHi.emotion) = some ref →
      (∃ out st1,
        generate_batch_base_nostream noneEnv st0 [segRefHi] ctx0 = some (out, st1) ∧
        ∃ a, st1.calls = st0.calls ++ [a] ∧ a.spk_emb = none ∧
          a.spk_smp = some (noneEnv.sample_audio_speaker
            (normalize_audio noneEnv
              (ref.wav_sr, noneEnv.bytes_to_librosa_array ref.wav ref.wav_sr) 24000).2)) ∧
      (∀ ys st2, generate_batch_base_stream noneEnv st0 [segRefHi] ctx0 = some (ys, st2) →
        ∃ a, st2.stream_calls = st0.stream_calls ++
            [(a, ctx0.infer_config.stream_chunk_size)] ∧
          a.spk_emb = none ∧
          a.spk_smp = some (noneEnv.sample_audio_speaker
            (normalize_audio noneEnv
              (ref.wav_sr, noneEnv.bytes_to_librosa_array ref.wav ref.wav_sr) 24000).2))) ∧
    (spkHi.get_ref (fun x => x.emotion == segRefHi.emotion) = none →
      (∃ out st1,
        generate_batch_base_nostream noneEnv st0 [segRefHi] ctx0 = some (out, st1) ∧
        ∃ a, st1.calls = st0.calls ++ [a] ∧ a.spk_smp = none ∧ a.spk_emb = spkHi.emb) ∧
      (∀ ys st2, generate_batch_base_stream noneEnv st0 [segRefHi] ctx0 = some (ys, st2) →
        ∃ a, st2.stream_calls = st0.stream_calls ++
            [(a, ctx0.infer_config.stream_chunk_size)] ∧
          a.spk_smp = none ∧ a.spk_emb = spkHi.emb)) :=
  C9_spk_precedence noneEnv st0 segRefHi [] ctx0 rfl spkHi rfl

/-! Claim C5. -/

/-- Claim C5: on a non-streaming cache miss the returned list has exactly one
pair per backend result, each with sample rate 24000; a slot where the
backend returned the failure sentinel none is an empty audio array, every
other slot is the primary channel of the multi-channel output; in the
streaming path the failure sentinels of each yielded partial batch are
likewise replaced by empty arrays. -/
theorem C5_partial_failure (env : InferEnv) (st : GenState) (seg0 : TTSSegment)
    (rest : List TTSSegment) (context : TTSPipelineContext)
    (hmiss : cacheGet st.cache (cacheKeyOf (seg0 :: rest) context) = none) :
    ∃ out st1,
      generate_batch_base_nostream env st (seg0 :: rest) context = some (out, st1) ∧
      ∃ a, st1.calls = st.calls ++ [a] ∧
        out.length = (env.generate_audio a).length ∧
        (∀ i : Nat, (env.generate_audio a)[i]? = some none → out[i]? = some (24000, [])) ∧
        (∀ (i : Nat) (d : Stereo), (env.generate_audio a)[i]? = some (some d) →
          out[i]? = some (24000, d.headD [])) ∧
        (∀ ys st2, generate_batch_base_stream env st (seg0 :: rest) context = some (ys, st2) →
          ∀ (j : Nat) (raw : List (Option Stereo)),
            (env.generate_audio_stream a context.infer_config.stream_chunk_size)[j]?
              = some raw →
            ys[j]? = some (raw.map (fun d => ((24000 : Nat), streamSlot d))) ∧
            ∀ i : Nat, raw[i]? = some none →
              (ys[j]?.getD [])[i]? = some (24000, [])) := by
  refine ⟨_, _, generate_nostream_miss env st seg0 rest context hmiss,
    mkArgsNS (mkLocals env seg0 (seg0 :: rest) context), rfl, ?_, ?_, ?_, ?_⟩
  · simp
  · intro i h
    rw [List.getElem?_map, h]
    rfl
  · intro i d h
    rw [List.getElem?_map, h]
    rfl
  · intro ys st2 hs
    obtain ⟨buff, hfold, hys, hst2⟩ :=
      stream_result_state env st seg0 rest context hmiss ys st2 hs
    have hys' : ys = (env.generate_audio_stream
        (mkArgsNS (mkLocals env seg0 (seg0 :: rest) context))
        context.infer_config.stream_chunk_size).map
        (fun raw => raw.map (fun d => ((24000 : Nat), streamSlot d))) := hys
    intro j raw hraw
    constructor
    · rw [hys', List.getElem?_map, hraw]
      rfl
    · intro i hi
      rw [hys', List.getElem?_map, hraw]
      show (raw.map (fun d => ((24000 : Nat), streamSlot d)))[i]? = some (24000, [])
      rw [List.getElem?_map, hi]
      rfl

/-- Witness for C5 at a three-segment batch whose middle slot fails. -/
theorem C5_partial_failure_witness :
    ∃ out st1,
      generate_batch_base_nostream sampleEnv st0 [seg1, segT2, segT3] ctx0 = some (out, st1) ∧
      ∃ a, st1.calls = st0.calls ++ [a] ∧
        out.length = (sampleEnv.generate_audio a).length ∧
        (∀ i : Nat, (sampleEnv.generate_audio a)[i]? = some none → out[i]? = some (24000, [])) ∧
        (∀ (i : Nat) (d : Stereo), (sampleEnv.generate_audio a)[i]? = some (some d) →
          out[i]? = some (24000, d.headD [])) ∧
        (∀ ys st2,
          generate_batch_base_stream sampleEnv st0 [seg1, segT2, segT3] ctx0 = some (ys, st2) →
          ∀ (j : Nat) (raw : List (Option Stereo)),
            (sampleEnv.generate_audio_stream a ctx0.infer_config.stream_chunk_size)[j]?
              = some raw →
            ys[j]? = some (raw.map (fun d => ((24000 : Nat), streamSlot d))) ∧
            ∀ i : Nat, raw[i]? = some none →
              (ys[j]?.getD [])[i]? = some (24000, [])) :=
  C5_partial_failure sampleEnv st0 seg1 [segT2, segT3] ctx0 rfl

/-- On equal lengths the buffer update succeeds and extends every slot. -/
theorem accumStep_eq (b : List AudioPair) (res : List Audio) (h : res.length = b.length) :
    accumStep b res = some (List.zipWith (fun pa d => (pa.1, pa.2 ++ d)) b res) := by
  induction b generalizing res with
  | nil =>
    cases res with
    | nil => rfl
    | cons d drest =>
      simp only [List.length_cons, List.length_nil] at h
      omega
  | cons pa brest ih =>
    cases res with
    | nil =>
      simp only [List.length_cons, List.length_nil] at h
      omega
    | cons d drest =>
      obtain ⟨sr1, before⟩ := pa
      have h2 : drest.length = brest.length := by
        simp only [List.length_cons] at h
        omega
      show (accumStep brest drest).map (fun r => (sr1, before ++ d) :: r) = _
      rw [ih drest h2]
      rfl

/-- Invariant of the streaming accumulation: starting from a buffer that every
raw batch matches in length, the fold succeeds and slot i of the result is the
starting slot extended by the concatenation, in yield order, of the processed
chunks for index i. -/
theorem streamFold_some (raws : List (List (Option Stereo))) :
    ∀ b : List AudioPair, (∀ raw ∈ raws, raw.length = b.length) →
    ∃ b2, streamFold (some b) raws = some (some b2) ∧ b2.length = b.length ∧
      ∀ i : Nat, b2[i]? = (b[i]?).map (fun pa =>
        (pa.1, pa.2 ++ (raws.map (fun raw => streamSlot ((raw[i]?).getD none))).flatten)) := by
  induction raws with
  | nil =>
    intro b _
    refine ⟨b, rfl, rfl, ?_⟩
    intro i
    cases h : b[i]? with
    | none => rfl
    | some pa => simp
  | cons raw rest ih =>
    intro b hlen
    have hraw : raw.length = b.length := hlen raw (List.mem_cons_self raw rest)
    have hres : (raw.map streamSlot).length = b.length := by
      rw [List.length_map]
      exact hraw
    have hstep : streamFold (some b) (raw :: rest) =
        streamFold (some (List.zipWith (fun pa d => (pa.1, pa.2 ++ d)) b (raw.map streamSlot)))
          rest := by
      show (match accumStep b (raw.map streamSlot) with
            | none => none
            | some b2 => streamFold (some b2) rest) = _
      rw [accumStep_eq b (raw.map streamSlot) hres]
    have hzblen : (List.zipWith (fun pa d => (pa.1, pa.2 ++ d)) b (raw.map streamSlot)).length
        = b.length := by
      rw [List.length_zipWith, hres]
      exact min_self _
    have hlen2 : ∀ raw2 ∈ rest,
        raw2.length = (List.zipWith (fun pa d => (pa.1, pa.2 ++ d)) b (raw.map streamSlot)).length := by
      intro raw2 hmem
      rw [hzblen]
      exact hlen raw2 (List.mem_cons_of_mem raw hmem)
    obtain ⟨b2, hfold2, hb2len, hidx⟩ :=
      ih (List.zipWith (fun pa d => (pa.1, pa.2 ++ d)) b (raw.map streamSlot)) hlen2
    refine ⟨b2, ?_, by rw [hb2len, hzblen], ?_⟩
    · rw [hstep]
      exact hfold2
    · intro i
      rw [hidx i, List.getElem?_zipWith']
      cases hb : b[i]? with
      | none => simp
      | some pa =>
        cases hr : raw[i]? with
        | some s =>
          simp only [List.getElem?_map, hr, Option.map_some', Option.some_bind,
            List.map_cons, List.flatten_cons, Option.map_some']
          rw [List.append_assoc]
          rfl
        | none =>
          exfalso
          have h1 : i < b.length := (List.getElem?_eq_some.mp hb).1
          have h2 : raw.length ≤ i := List.getElem?_eq_none_iff.mp hr
          rw [hraw] at h2
          omega

/-- Per-index audio of the yields of a streaming call, expressed over the raw
backend batches. -/
theorem ysChunk_eq (raws : List (List (Option Stereo))) (i : Nat) :
    (raws.map (fun raw => raw.map (fun d => ((24000 : Nat), streamSlot d)))).map
        (fun y => ((y[i]?).map Prod.snd).getD []) =
      raws.map (fun raw => streamSlot ((raw[i]?).getD none)) := by
  rw [List.map_map]
  apply List.map_congr_left
  intro raw _
  show ((((raw.map (fun d => ((24000 : Nat), streamSlot d)))[i]?).map Prod.snd).getD []) = _
  rw [List.getElem?_map]
  cases hr : raw[i]? with
  | none => rfl
  | some s => rfl

/-! Claim C7. -/

/-- Claim C7: provided the backend satisfies its streaming contract — for
every argument record, chunk size and slot, the processed streaming chunks
concatenate to the processed blocking result (spec sections 4.2 and 8;
ChatTTSInfer is not under src/ and is modelled by InferEnv) — concatenating
all chunks yielded for segment index i by a fully consumed streaming call
equals the audio at index i returned by the non-streaming call on the same
segments, context and starting state; both paths build the identical argument
record, including the first segment's seed, for the seed-scoped backend
invocation. -/
theorem C7_stream_reconstruction (env : InferEnv) (st : GenState)
    (segments : List TTSSegment) (context : TTSPipelineContext)
    (hcoh : ∀ (a : BackendArgs) (c : Nat) (i : Nat),
      ((env.generate_audio_stream a c).map
        (fun raw => streamSlot ((raw[i]?).getD none))).flatten
        = nsSlot (((env.generate_audio a)[i]?).getD none))
    (out : List AudioPair) (st1 : GenState) (ys : List (List AudioPair)) (st2 : GenState)
    (hns : generate_batch_base_nostream env st segments context = some (out, st1))
    (hs : generate_batch_base_stream env st segments context = some (ys, st2)) (i : Nat) :
    (ys.map (fun y => ((y[i]?).map Prod.snd).getD [])).flatten
      = ((out[i]?).map Prod.snd).getD [] := by
  cases hcache : cacheGet st.cache (cacheKeyOf segments context) with
  | some v =>
    have hout : v = out := by
      simp only [generate_batch_base_nostream, hcache] at hns
      simp only [Option.some.injEq, Prod.mk.injEq] at hns
      exact hns.1
    have hys : ys = [v] := by
      simp only [generate_batch_base_stream, hcache] at hs
      simp only [Option.some.injEq, Prod.mk.injEq] at hs
      exact hs.1.symm
    rw [hys, hout]
    simp
  | none =>
    cases segments with
    | nil =>
      simp only [generate_batch_base_nostream, hcache] at hns
      exact absurd hns (by simp)
    | cons seg0 rest =>
      rw [generate_nostream_miss env st seg0 rest context hcache] at hns
      simp only [Option.some.injEq, Prod.mk.injEq] at hns
      obtain ⟨buff, hfold, hys, hst2⟩ :=
        stream_result_state env st seg0 rest context hcache ys st2 hs
      rw [mkArgsStream_eq_mkArgsNS] at hys
      rw [hys, ysChunk_eq, hcoh, ← hns.1, List.getElem?_map]
      cases h : (env.generate_audio (mkArgsNS (mkLocals env seg0 (seg0 :: rest) context)))[i]? with
      | none => rfl
      | some d => rfl

/-- Witness for C7 at a backend double whose exhausted stream trivially
satisfies the streaming contract. -/
theorem C7_stream_reconstruction_witness :
    ((((generate_batch_base_stream noneEnv st0 [seg1] ctx0).getD ([], st0)).1.map
        (fun y => ((y[0]?).map Prod.snd).getD [])).flatten)
      = (((((generate_batch_base_nostream noneEnv st0 [seg1] ctx0).getD ([], st0)).1)[0]?).map
          Prod.snd).getD [] := by
  refine C7_stream_reconstruction noneEnv st0 [seg1] ctx0 ?_ _ _ _ _ rfl rfl 0
  intro a c i
  show (([] : List (List (Option Stereo))).map
      (fun raw => streamSlot ((raw[i]?).getD none))).flatten
    = nsSlot (((a.text.map (fun _ => (none : Option Stereo)))[i]?).getD none)
  rw [List.getElem?_map]
  cases h : a.text[i]? with
  | none => rfl
  | some t => rfl

/-! Claim C6. -/

/-- Claim C6 fails as stated: when the backend stream is exhausted without
having yielded anything, the code passes the still-None buffer to set_cache,
so after full consumption the cache holds no per-segment list for the key —
not the claimed one-entry-per-segment concatenation list. -/
theorem C6_counterexample :
    (generate_batch_base_stream noneEnv st0 [seg1] ctx0).map
        (fun r => (r.1, cacheGet r.2.cache (cacheKeyOf [seg1] ctx0))) =
      some ([], none) := by decide

/-- Claim C6 (amended): for a fully consumed streaming cache-miss call whose
backend yielded at least one partial batch, each batch holding one chunk per
segment, the cache is updated for the key with one pair per segment index:
sample rate 24000 and the concatenation, in yield order, of all chunks
yielded for that index (failure sentinels already replaced by empty arrays
and the primary channel extracted).  When the stream yields nothing, a null
value is cached instead, which behaves as a miss on later lookups. -/
theorem C6_amended_thm (env : InferEnv) (st : GenState) (seg0 : TTSSegment)
    (rest : List TTSSegment) (context : TTSPipelineContext)
    (hmiss : cacheGet st.cache (cacheKeyOf (seg0 :: rest) context) = none)
    (ys : List (List AudioPair)) (st2 : GenState)
    (hs : generate_batch_base_stream env st (seg0 :: rest) context = some (ys, st2))
    (hne : ys ≠ [])
    (hlen : ∀ y ∈ ys, y.length = (seg0 :: rest).length) :
    ∃ final, cacheGet st2.cache (cacheKeyOf (seg0 :: rest) context) = some final ∧
      final.length = (seg0 :: rest).length ∧
      ∀ i : Nat, i < (seg0 :: rest).length →
        final[i]? = some (24000,
          (ys.map (fun y => ((y[i]?).map Prod.snd).getD [])).flatten) := by
  obtain ⟨buff, hfold, hys, hst2⟩ := stream_result_state env st seg0 rest context hmiss ys st2 hs
  cases hraws : env.generate_audio_stream
      (mkArgsStream (mkLocals env seg0 (seg0 :: rest) context))
      (mkLocals env seg0 (seg0 :: rest) context).chunk_size with
  | nil =>
    rw [hraws] at hys
    simp only [List.map_nil] at hys
    exact absurd hys hne
  | cons raw0 rawrest =>
    rw [hraws] at hys hfold
    have hn : raw0.length = (seg0 :: rest).length := by
      have h0 : (raw0.map (fun d => ((24000 : Nat), streamSlot d))) ∈ ys := by
        rw [hys, List.map_cons]
        exact List.mem_cons_self _ _
      have := hlen _ h0
      simpa using this
    have hrestlen : ∀ raw2 ∈ rawrest,
        raw2.length = ((raw0.map streamSlot).map (fun d => ((24000 : Nat), d))).length := by
      intro raw2 hmem
      have h2 : (raw2.map (fun d => ((24000 : Nat), streamSlot d))) ∈ ys := by
        rw [hys, List.map_cons]
        exact List.mem_cons_of_mem _ (List.mem_map_of_mem _ hmem)
      have := hlen _ h2
      simp only [List.length_map]
      simpa using (this.trans hn.symm)
    have hstep : streamFold none (raw0 :: rawrest) =
        streamFold (some ((raw0.map streamSlot).map (fun d => ((24000 : Nat), d)))) rawrest := by
      show streamFold (some ((raw0.map streamSlot).map (fun d => ((24000 : Nat), d)))) rawrest = _
      rfl
    obtain ⟨b2, hfold2, hb2len, hidx⟩ :=
      streamFold_some rawrest ((raw0.map streamSlot).map (fun d => ((24000 : Nat), d))) hrestlen
    have hbuff : buff = some b2 := by
      rw [hstep, hfold2] at hfold
      injection hfold with h
      exact h.symm
    refine ⟨b2, ?_, ?_, ?_⟩
    · rw [hst2]
      show cacheGet (cacheSet st.cache (cacheKeyOf (seg0 :: rest) context) buff) _ = some b2
      rw [cacheGet_cacheSet_same, hbuff]
    · rw [hb2len]
      simp only [List.length_map]
      exact hn
    · intro i hi
      rw [hidx i]
      have hiraw : i < raw0.length := by
        rw [hn]
        exact hi
      have hs0 : raw0[i]? = some raw0[i] := List.getElem?_eq_getElem hiraw
      have hb0i : ((raw0.map streamSlot).map (fun d => ((24000 : Nat), d)))[i]? =
          some ((24000 : Nat), streamSlot raw0[i]) := by
        rw [List.getElem?_map, List.getElem?_map, hs0]
        rfl
      rw [hb0i, hys, ysChunk_eq, List.map_cons, List.flatten_cons, hs0]
      rfl

/-- Witness for C6 (amended) at a three-segment batch streamed in two partial
batches. -/
theorem C6_amended_witness :
    ∃ final,
      cacheGet (((generate_batch_base_stream sampleEnv st0 [seg1, segT2, segT3] ctx0).getD
          ([], st0)).2).cache (cacheKeyOf [seg1, segT2, segT3] ctx0) = some final ∧
      final.length = ([seg1, segT2, segT3] : List TTSSegment).length ∧
      ∀ i : Nat, i < ([seg1, segT2, segT3] : List TTSSegment).length →
        final[i]? = some (24000,
          ((((generate_batch_base_stream sampleEnv st0 [seg1, segT2, segT3] ctx0).getD
              ([], st0)).1).map (fun y => ((y[i]?).map Prod.snd).getD [])).flatten) :=
  C6_amended_thm sampleEnv st0 seg1 [segT2, segT3] ctx0 rfl
    (((generate_batch_base_stream sampleEnv st0 [seg1, segT2, segT3] ctx0).getD ([], st0)).1)
    (((generate_batch_base_stream sampleEnv st0 [seg1, segT2, segT3] ctx0).getD ([], st0)).2)
    rfl (by decide) (by decide)
